import Mathlib

/-!
Verification of the `dts6012m_uart` ESPHome component
(`src/components/dts6012m_uart/sensor.py`).

The component is a configuration-schema adapter: it declares a sensor schema,
validates the UART wiring parameters against the DTS6012M's fixed serial
settings (9600 baud, 8 data bits, no parity, 1 stop bit), and registers the
generated driver.  We embed the configuration dictionaries, the validator
`validate_uart_config`, the `cv.All` composition forming
`FINAL_CONFIG_SCHEMA`, the schema arguments of `CONFIG_SCHEMA`, and — for the
parts of the system the repository only references (the esphome framework and
the native driver) — models taken from the specification, each marked
`Modelled from the spec:` in its doc comment.
-/

/-! ## Configuration dictionaries

A YAML configuration reaches the python module as nested dictionaries.  We
embed the entries the module reads as typed optional fields (`none` = key
absent, matching `dict.get` / `dict[...]` semantics) and keep every other
entry in an opaque association list `extra`, so that theorems can quantify
over configurations that differ in unrelated entries. -/

/-- The `uart` sub-dictionary of a configuration.  The four fields read by
`validate_uart_config`; `extra` holds all other entries (pins, ids, ...). -/
structure UartConfig where
  baud_rate : Option Nat
  data_bits : Option Nat
  parity    : Option String
  stop_bits : Option Nat
  extra     : List (String × String)
deriving DecidableEq, Repr

/-- A component configuration dictionary: the `uart` sub-dictionary, the
`update_interval` (seconds), the `id`, and all other entries in `extra`. -/
structure Config where
  uart            : Option UartConfig
  update_interval : Option Nat
  id              : Option String
  extra           : List (String × String)
deriving DecidableEq, Repr

/-- Key name `uart.CONF_UART`. -/
def CONF_UART : String := "uart"

/-- Key name `uart.CONF_BAUD_RATE`. -/
def CONF_BAUD_RATE : String := "baud_rate"

/-- Outcome of running a config validator: normal return of a configuration,
`cv.Invalid` raised with a message, or an uncaught `KeyError` on a missing
dictionary key. -/
inductive ValidateResult where
  | ok       : Config → ValidateResult
  | invalid  : String → ValidateResult
  | keyError : String → ValidateResult
deriving DecidableEq, Repr

/-- A configuration validator, as composed by `cv.All`. -/
def Validator : Type := Config → ValidateResult

/-! ## The validator (sensor.py lines 87-124) -/

/-- Embedding of `validate_uart_config`.  Mirrors the python line by line:
`config[uart.CONF_UART]` and `uart_config[uart.CONF_BAUD_RATE]` are plain
indexing (KeyError when absent); data bits, parity and stop bits are read with
`dict.get` and defaults 8, `"NONE"`, 1; the four checks run in order and the
first failing one raises `cv.Invalid` with its message; otherwise the input
configuration is returned. -/
def validate_uart_config (config : Config) : ValidateResult :=
  match config.uart with
  | none => .keyError CONF_UART
  | some uart_config =>
    match uart_config.baud_rate with
    | none => .keyError CONF_BAUD_RATE
    | some br =>
      if br ≠ 9600 then
        .invalid "DTS6012M sensor requires 9600 baud rate"
      else if uart_config.data_bits.getD 8 ≠ 8 then
        .invalid "DTS6012M sensor requires 8 data bits"
      else if uart_config.parity.getD "NONE" ≠ "NONE" then
        .invalid "DTS6012M sensor requires no parity"
      else if uart_config.stop_bits.getD 1 ≠ 1 then
        .invalid "DTS6012M sensor requires 1 stop bit"
      else
        .ok config

/-! ## Schema composition (sensor.py lines 73-85, 126-127, 129-149) -/

/-- `cv.All`: run the validators in order, feeding each the previous output;
a raised error propagates and stops the chain. -/
def cv_All (v₁ v₂ : Validator) : Validator := fun c =>
  match v₁ c with
  | .ok c₂ => v₂ c₂
  | e => e

/-- `FINAL_CONFIG_SCHEMA = cv.All(CONFIG_SCHEMA, validate_uart_config)`,
parametrised by the base `CONFIG_SCHEMA` validator (whose behaviour is the
esphome framework's, not this repository's). -/
def FINAL_CONFIG_SCHEMA (schema : Validator) : Validator :=
  cv_All schema validate_uart_config

/-- One codegen action performed by `to_code`. -/
inductive CodegenOp where
  | new_Pvariable : String → CodegenOp
  | register_component : CodegenOp
  | register_sensor : CodegenOp
  | register_uart_device : CodegenOp
deriving DecidableEq, Repr

/-- Embedding of `to_code`: create the variable from `config[CONF_ID]`
(KeyError, modelled as `none`, if absent) and register it as component,
sensor and UART device. -/
def to_code (config : Config) : Option (List CodegenOp) :=
  match config.id with
  | none => none
  | some i =>
      some [CodegenOp.new_Pvariable i, CodegenOp.register_component,
            CodegenOp.register_sensor, CodegenOp.register_uart_device]

/-- Modelled from the spec: the host build framework (esphome, not in this
repository) applies the component's final schema at configuration time and
hands a configuration to `to_code` only when the schema accepted it; the
result is the configuration `to_code` is invoked on, or `none` when
validation failed and `to_code` is never reached. -/
def config_reaching_to_code (schema : Validator) (c : Config) : Option Config :=
  match FINAL_CONFIG_SCHEMA schema c with
  | .ok c₂ => some c₂
  | _ => none

/-- Modelled from the spec: `cv.polling_component_schema` (esphome framework,
not in this repository) supplies the given default update interval when the
configuration omits one and keeps an explicitly configured one. -/
def polling_component_schema (d : Nat) (c : Config) : Config :=
  { c with update_interval := some (c.update_interval.getD d) }

/-- The default update interval the source passes to
`cv.polling_component_schema`: `"60s"`, i.e. 60 seconds. -/
def CONFIG_SCHEMA_update_interval_default : Nat := 60

/-- The keyword arguments `CONFIG_SCHEMA` passes to `sensor.sensor_schema`. -/
structure SensorSchemaArgs where
  unit_of_measurement : String
  icon : String
  accuracy_decimals : Nat
  device_class : String
  state_class : String
deriving DecidableEq, Repr

/-- Modelled from the spec: `UNIT_METER` from `esphome.const` (not in this
repository), the unit string for meters. -/
def UNIT_METER : String := "m"

/-- Modelled from the spec: `ICON_ARROW_EXPAND_VERTICAL` from
`esphome.const` (not in this repository). -/
def ICON_ARROW_EXPAND_VERTICAL : String := "mdi:arrow-expand-vertical"

/-- Modelled from the spec: `DEVICE_CLASS_DISTANCE` from `esphome.const`
(not in this repository). -/
def DEVICE_CLASS_DISTANCE : String := "distance"

/-- Modelled from the spec: `STATE_CLASS_MEASUREMENT` from `esphome.const`
(not in this repository). -/
def STATE_CLASS_MEASUREMENT : String := "measurement"

/-- The arguments of the `sensor.sensor_schema(...)` call building
`CONFIG_SCHEMA` (sensor.py lines 73-81). -/
def CONFIG_SCHEMA_sensor_args : SensorSchemaArgs :=
  { unit_of_measurement := UNIT_METER
    icon := ICON_ARROW_EXPAND_VERTICAL
    accuracy_decimals := 3
    device_class := DEVICE_CLASS_DISTANCE
    state_class := STATE_CLASS_MEASUREMENT }

/-! ## The native driver, modelled from the spec

The actual driver (frame parsing, measurement conversion, polling) lives in a
native component the repository only references; the specification defines
its `Reading`, `DriverState` and `poll()` contract. -/

/-- Modelled from the spec: a `Reading` — a decoded distance with fixed
3-decimal accuracy (stored here in thousandths of a meter) and a monotonic
timestamp.  Created only from a well-formed frame, immutable once produced. -/
structure Reading where
  distanceMilli : Nat
  timestamp : Nat
deriving DecidableEq, Repr

/-- The accuracy, in decimal places, of a `Reading`'s `distanceMeters`. -/
def Reading.accuracy_decimals : Nat := 3

/-- Modelled from the spec: the `DriverState` of the native driver —
`lastReading`, `lastUpdate`, plus the reading produced since the previous
poll (pending), which is what `poll()` hands out. -/
structure DriverState where
  lastReading : Option Reading
  lastUpdate : Option Nat
  pendingReading : Option Reading
deriving DecidableEq, Repr

/-- Modelled from the spec: the frame-processing path of the native driver —
a validated frame's reading supersedes `lastReading`, stamps `lastUpdate`,
and becomes pending for the next `poll()`. -/
def process_frame (_s : DriverState) (r : Reading) (now : Nat) : DriverState :=
  { lastReading := some r, lastUpdate := some now, pendingReading := some r }

/-- Modelled from the spec: `poll()` of the native driver — returns the
latest `Reading` produced since the previous poll, or `none` if no new frame
has been validated since the last call, and clears the pending reading. -/
def poll (s : DriverState) : Option Reading × DriverState :=
  (s.pendingReading, { s with pendingReading := none })

/-! ## Concrete configurations used as evaluation points -/

/-- A uart sub-configuration with exactly the required settings. -/
def uartGood : UartConfig :=
  { baud_rate := some 9600, data_bits := some 8, parity := some "NONE",
    stop_bits := some 1, extra := [("tx_pin", "GPIO1"), ("rx_pin", "GPIO3")] }

/-- A uart sub-configuration relying on the defaults for the optional keys. -/
def uartDefaults : UartConfig :=
  { baud_rate := some 9600, data_bits := none, parity := none,
    stop_bits := none, extra := [] }

/-- A uart sub-configuration deviating in all four parameters. -/
def uartAllBad : UartConfig :=
  { baud_rate := some 115200, data_bits := some 7, parity := some "EVEN",
    stop_bits := some 2, extra := [] }

/-- A uart sub-configuration missing the `baud_rate` key. -/
def uartNoBaud : UartConfig :=
  { baud_rate := none, data_bits := some 8, parity := some "NONE",
    stop_bits := some 1, extra := [] }

/-- A full configuration around `uartGood`. -/
def cfgGood : Config :=
  { uart := some uartGood, update_interval := none,
    id := some "distance_sensor", extra := [("name", "Distance Sensor")] }

/-- A full configuration around `uartDefaults`, with different other entries. -/
def cfgDefaults : Config :=
  { uart := some uartDefaults, update_interval := some 30,
    id := some "other_sensor", extra := [] }

/-- A full configuration around `uartAllBad`. -/
def cfgAllBad : Config :=
  { uart := some uartAllBad, update_interval := none, id := none, extra := [] }

/-- A configuration with no `uart` sub-configuration at all. -/
def cfgNoUart : Config :=
  { uart := none, update_interval := none, id := none, extra := [] }

/-- A full configuration around `uartNoBaud`. -/
def cfgNoBaud : Config :=
  { uart := some uartNoBaud, update_interval := none, id := none, extra := [] }

/-! ## Characterisation lemma -/

/-- When the `uart` sub-configuration and its `baud_rate` are present,
`validate_uart_config` is the four-way check chain on the effective values. -/
theorem validate_uart_config_eq (c : Config) (u : UartConfig) (br : Nat)
    (hu : c.uart = some u) (hb : u.baud_rate = some br) :
    validate_uart_config c =
      (if br ≠ 9600 then
        ValidateResult.invalid "DTS6012M sensor requires 9600 baud rate"
      else if u.data_bits.getD 8 ≠ 8 then
        ValidateResult.invalid "DTS6012M sensor requires 8 data bits"
      else if u.parity.getD "NONE" ≠ "NONE" then
        ValidateResult.invalid "DTS6012M sensor requires no parity"
      else if u.stop_bits.getD 1 ≠ 1 then
        ValidateResult.invalid "DTS6012M sensor requires 1 stop bit"
      else
        ValidateResult.ok c) := by
  simp only [validate_uart_config, hu, hb]

/-- Identity base validator, used to evaluate the schema composition at a
concrete point. -/
def schema_id : Validator := fun c => ValidateResult.ok c

/-! ## Claims -/

/-- C1: when the uart sub-configuration and its baud rate are present,
`validate_uart_config` returns the configuration normally exactly when the
effective values are 9600 baud, 8 data bits, parity NONE and 1 stop bit, and
raises `cv.Invalid` exactly when one of the four deviates — in no other case
does it accept, and in no other case does it raise `cv.Invalid`. -/
theorem validate_uart_config_accept_reject (c : Config) (u : UartConfig)
    (br : Nat) (hu : c.uart = some u) (hb : u.baud_rate = some br) :
    (validate_uart_config c = ValidateResult.ok c ↔
      (br = 9600 ∧ u.data_bits.getD 8 = 8 ∧ u.parity.getD "NONE" = "NONE" ∧
        u.stop_bits.getD 1 = 1))
    ∧ ((∃ msg, validate_uart_config c = ValidateResult.invalid msg) ↔
      ¬(br = 9600 ∧ u.data_bits.getD 8 = 8 ∧ u.parity.getD "NONE" = "NONE" ∧
        u.stop_bits.getD 1 = 1)) := by
  rw [validate_uart_config_eq c u br hu hb]
  by_cases h1 : br = 9600 <;> by_cases h2 : u.data_bits.getD 8 = 8 <;>
    by_cases h3 : u.parity.getD "NONE" = "NONE" <;>
    by_cases h4 : u.stop_bits.getD 1 = 1 <;>
    simp [h1, h2, h3, h4]

/-- C1 witness: the example configuration with all four required values is
accepted. -/
theorem validate_uart_config_accept_reject_witness :
    validate_uart_config cfgGood = ValidateResult.ok cfgGood :=
  (validate_uart_config_accept_reject cfgGood uartGood 9600 rfl rfl).1.mpr
    ⟨rfl, rfl, rfl, rfl⟩

/-- C2: `FINAL_CONFIG_SCHEMA` runs `validate_uart_config` after the base
`CONFIG_SCHEMA`; whenever the base schema accepts but the UART check raises
`cv.Invalid`, the final schema raises that `cv.Invalid` and `to_code` is
never reached for this configuration. -/
theorem final_config_schema_rejects_before_to_code
    (schema : Validator) (c c₂ : Config) (msg : String)
    (hbase : schema c = ValidateResult.ok c₂)
    (hbad : validate_uart_config c₂ = ValidateResult.invalid msg) :
    FINAL_CONFIG_SCHEMA schema c = ValidateResult.invalid msg ∧
      config_reaching_to_code schema c = none := by
  have h : FINAL_CONFIG_SCHEMA schema c = ValidateResult.invalid msg := by
    simp only [FINAL_CONFIG_SCHEMA, cv_All, hbase, hbad]
  refine ⟨h, ?_⟩
  simp only [config_reaching_to_code, h]

/-- C2 witness: with the identity base schema, the all-deviating
configuration is rejected by the final schema and never reaches `to_code`. -/
theorem final_config_schema_rejects_before_to_code_witness :
    FINAL_CONFIG_SCHEMA schema_id cfgAllBad =
      ValidateResult.invalid "DTS6012M sensor requires 9600 baud rate" ∧
    config_reaching_to_code schema_id cfgAllBad = none :=
  final_config_schema_rejects_before_to_code schema_id cfgAllBad cfgAllBad
    "DTS6012M sensor requires 9600 baud rate" rfl (by decide)

/-- C3: the four checks run in the fixed order baud rate, data bits, parity,
stop bits, and the `cv.Invalid` raised carries the message of the first
deviating check in that order. -/
theorem validate_uart_config_check_order (c : Config) (u : UartConfig)
    (br : Nat) (hu : c.uart = some u) (hb : u.baud_rate = some br) :
    (br ≠ 9600 →
      validate_uart_config c =
        ValidateResult.invalid "DTS6012M sensor requires 9600 baud rate")
    ∧ (br = 9600 → u.data_bits.getD 8 ≠ 8 →
      validate_uart_config c =
        ValidateResult.invalid "DTS6012M sensor requires 8 data bits")
    ∧ (br = 9600 → u.data_bits.getD 8 = 8 → u.parity.getD "NONE" ≠ "NONE" →
      validate_uart_config c =
        ValidateResult.invalid "DTS6012M sensor requires no parity")
    ∧ (br = 9600 → u.data_bits.getD 8 = 8 → u.parity.getD "NONE" = "NONE" →
      u.stop_bits.getD 1 ≠ 1 →
      validate_uart_config c =
        ValidateResult.invalid "DTS6012M sensor requires 1 stop bit") := by
  rw [validate_uart_config_eq c u br hu hb]
  exact ⟨fun h1 => by simp [h1], fun h1 h2 => by simp [h1, h2],
    fun h1 h2 h3 => by simp [h1, h2, h3],
    fun h1 h2 h3 h4 => by simp [h1, h2, h3, h4]⟩

/-- C3 witness: when all four parameters deviate, the message is the baud
rate one. -/
theorem validate_uart_config_check_order_witness :
    validate_uart_config cfgAllBad =
      ValidateResult.invalid "DTS6012M sensor requires 9600 baud rate" :=
  (validate_uart_config_check_order cfgAllBad uartAllBad 115200 rfl rfl).1
    (by decide)

/-- C4: every accepted configuration is returned unchanged, and validation is
idempotent on accepted configurations. -/
theorem validate_uart_config_returns_input (c c₂ : Config)
    (h : validate_uart_config c = ValidateResult.ok c₂) :
    c₂ = c ∧ validate_uart_config c₂ = ValidateResult.ok c₂ := by
  have hc : c₂ = c := by
    cases hu : c.uart with
    | none => simp [validate_uart_config, hu] at h
    | some u =>
      cases hb : u.baud_rate with
      | none => simp [validate_uart_config, hu, hb] at h
      | some br =>
        rw [validate_uart_config_eq c u br hu hb] at h
        split_ifs at h
        simp_all
  subst hc
  exact ⟨rfl, h⟩

/-- C4 witness: the accepted example configuration is returned as itself and
revalidates to itself. -/
theorem validate_uart_config_returns_input_witness :
    cfgGood = cfgGood ∧
      validate_uart_config cfgGood = ValidateResult.ok cfgGood :=
  validate_uart_config_returns_input cfgGood cfgGood (by decide)

/-- C5: when the configuration does not specify an update interval, the
polling default the component declares — 60 seconds — is used. -/
theorem update_interval_default_60 (c : Config)
    (h : c.update_interval = none) :
    (polling_component_schema CONFIG_SCHEMA_update_interval_default
        c).update_interval = some 60 ∧
      CONFIG_SCHEMA_update_interval_default = 60 := by
  simp [polling_component_schema, CONFIG_SCHEMA_update_interval_default, h]

/-- C5 witness: the example configuration omits the interval and receives
60 seconds. -/
theorem update_interval_default_60_witness :
    (polling_component_schema CONFIG_SCHEMA_update_interval_default
        cfgGood).update_interval = some 60 ∧
      CONFIG_SCHEMA_update_interval_default = 60 :=
  update_interval_default_60 cfgGood rfl

/-- C6: the sensor schema declares the measurement in meters with exactly 3
accuracy decimals, matching the declared precision of a Reading. -/
theorem sensor_schema_meters_three_decimals :
    CONFIG_SCHEMA_sensor_args.unit_of_measurement = UNIT_METER ∧
    CONFIG_SCHEMA_sensor_args.accuracy_decimals = 3 ∧
    CONFIG_SCHEMA_sensor_args.accuracy_decimals = Reading.accuracy_decimals :=
  ⟨rfl, rfl, rfl⟩

/-- C7: a freshly processed frame is handed out by the next `poll()`, and a
second `poll()` with no new frame validated in between returns none — in
general, two consecutive polls always yield none on the second. -/
theorem poll_twice_returns_none (s : DriverState) (r : Reading) (now : Nat) :
    (poll (process_frame s r now)).1 = some r ∧
    (poll (poll (process_frame s r now)).2).1 = none ∧
    ∀ t : DriverState, (poll (poll t).2).1 = none :=
  ⟨rfl, rfl, fun _ => rfl⟩

/-- C8: with the baud rate present and correct, the configuration is accepted
exactly when every explicitly present optional key (data bits, parity, stop
bits) carries its required value — a missing optional key is treated as the
default and accepted. -/
theorem validate_uart_config_optional_defaults (c : Config) (u : UartConfig)
    (hu : c.uart = some u) (hb : u.baud_rate = some 9600) :
    (∃ c₂, validate_uart_config c = ValidateResult.ok c₂) ↔
      ((∀ d, u.data_bits = some d → d = 8) ∧
       (∀ p, u.parity = some p → p = "NONE") ∧
       (∀ sb, u.stop_bits = some sb → sb = 1)) := by
  rw [validate_uart_config_eq c u 9600 hu hb]
  have hd : (u.data_bits.getD 8 = 8) ↔ (∀ d, u.data_bits = some d → d = 8) := by
    cases u.data_bits <;> simp
  have hp : (u.parity.getD "NONE" = "NONE") ↔
      (∀ p, u.parity = some p → p = "NONE") := by
    cases u.parity <;> simp
  have hs : (u.stop_bits.getD 1 = 1) ↔ (∀ sb, u.stop_bits = some sb → sb = 1) := by
    cases u.stop_bits <;> simp
  rw [← hd, ← hp, ← hs]
  by_cases h2 : u.data_bits.getD 8 = 8 <;>
    by_cases h3 : u.parity.getD "NONE" = "NONE" <;>
    by_cases h4 : u.stop_bits.getD 1 = 1 <;>
    simp [h2, h3, h4]

/-- C8 witness: a configuration whose uart sub-configuration omits all three
optional keys is accepted. -/
theorem validate_uart_config_optional_defaults_witness :
    ∃ c₂, validate_uart_config cfgDefaults = ValidateResult.ok c₂ :=
  (validate_uart_config_optional_defaults cfgDefaults uartDefaults rfl
      rfl).mpr
    ⟨by intro d hd; simp [uartDefaults] at hd,
     by intro p hp; simp [uartDefaults] at hp,
     by intro sb hsb; simp [uartDefaults] at hsb⟩

/-- C9: a configuration without the uart key, or whose uart sub-configuration
lacks the baud-rate key, makes `validate_uart_config` raise `KeyError`, not
`cv.Invalid`; with both present, no `KeyError` is ever raised. -/
theorem validate_uart_config_missing_keys :
    (∀ c : Config, c.uart = none →
      validate_uart_config c = ValidateResult.keyError CONF_UART)
    ∧ (∀ (c : Config) (u : UartConfig), c.uart = some u → u.baud_rate = none →
      validate_uart_config c = ValidateResult.keyError CONF_BAUD_RATE)
    ∧ (∀ (c : Config) (u : UartConfig) (br : Nat), c.uart = some u →
      u.baud_rate = some br →
      ∀ k, validate_uart_config c ≠ ValidateResult.keyError k) := by
  refine ⟨?_, ?_, ?_⟩
  · intro c hu; simp [validate_uart_config, hu]
  · intro c u hu hb; simp [validate_uart_config, hu, hb]
  · intro c u br hu hb k
    rw [validate_uart_config_eq c u br hu hb]
    split_ifs <;> simp

/-- C9 witness: the two missing-key configurations each raise `KeyError`. -/
theorem validate_uart_config_missing_keys_witness :
    validate_uart_config cfgNoUart = ValidateResult.keyError CONF_UART ∧
    validate_uart_config cfgNoBaud = ValidateResult.keyError CONF_BAUD_RATE :=
  ⟨validate_uart_config_missing_keys.1 cfgNoUart rfl,
   validate_uart_config_missing_keys.2.1 cfgNoBaud uartNoBaud rfl rfl⟩

/-- C10: the accept/reject outcome, message included, depends only on the
four effective UART parameters: two configurations agreeing on them are
either both accepted or both rejected with the same message, whatever their
other entries. -/
theorem validate_uart_config_depends_only_on_uart (c₁ c₂ : Config)
    (u₁ u₂ : UartConfig) (br : Nat)
    (h₁ : c₁.uart = some u₁) (h₂ : c₂.uart = some u₂)
    (hb₁ : u₁.baud_rate = some br) (hb₂ : u₂.baud_rate = some br)
    (hd : u₁.data_bits.getD 8 = u₂.data_bits.getD 8)
    (hp : u₁.parity.getD "NONE" = u₂.parity.getD "NONE")
    (hs : u₁.stop_bits.getD 1 = u₂.stop_bits.getD 1) :
    ((∃ c, validate_uart_config c₁ = ValidateResult.ok c) ↔
      (∃ c, validate_uart_config c₂ = ValidateResult.ok c))
    ∧ ∀ msg, (validate_uart_config c₁ = ValidateResult.invalid msg ↔
      validate_uart_config c₂ = ValidateResult.invalid msg) := by
  rw [validate_uart_config_eq c₁ u₁ br h₁ hb₁,
    validate_uart_config_eq c₂ u₂ br h₂ hb₂, hd, hp, hs]
  split_ifs <;> simp

/-- C10 witness: the explicit-values configuration and the defaults
configuration agree on the effective parameters yet differ everywhere else;
their outcomes coincide. -/
theorem validate_uart_config_depends_only_on_uart_witness :
    (∃ c, validate_uart_config cfgGood = ValidateResult.ok c) ↔
      (∃ c, validate_uart_config cfgDefaults = ValidateResult.ok c) :=
  (validate_uart_config_depends_only_on_uart cfgGood cfgDefaults uartGood
    uartDefaults 9600 rfl rfl rfl rfl rfl rfl rfl).1
